import Mathlib

/-!
Verification of `s_curve_traj_follower` (HITSZ-WTRobot/motor_drivers).

The follower code (`s_curve_traj_follower.c/.h`) is embedded shallowly over ℚ
(standing for C `float`, with division totalized as in Mathlib: `x / 0 = 0`).
The external collaborators declared by the headers but not part of the source
tree here — the S-curve synthesis library (`libs/s_curve.h`), the PD corrector
(`libs/pid_pd.h`) and the motor interface (`interfaces/motor_if.h`) — are
modelled as follows:

* the S-curve library is kept fully abstract: a record `SCurveLib` of the
  functions the follower calls (`SCurve_Init`, `SCurve_CalcX/V/A`,
  `SCurve_Reset`); theorems quantify over every such record, so any dataflow
  equality proved below holds because the follower really routes those exact
  values, not because of any property of a concrete curve;
* the PD corrector and the motor velocity-control interface are modelled from
  the spec (their headers are repository code not present under `src/`).
-/

namespace MotorDrivers

/-- Result code of S-curve synthesis. Modelled from the spec:
`ResultCode{Success, Failure}` of the curve module (`libs/s_curve.h` is not
under `src/`). -/
inductive SCurve_Result_t where
  | success
  | failure
  deriving DecidableEq, Repr

/-- The S-curve profile object. The follower only ever reads its
`total_time` field directly; evaluation goes through the library functions,
which are kept abstract in `SCurveLib`. -/
structure SCurve_t where
  total_time : ℚ
  deriving DecidableEq, Repr

/-- Abstract interface of `libs/s_curve.h` as used by the follower.
`Init x0 x1 v0 a0 vmax amax jmax` returns the result code together with the
contents written into the output curve (`SCurve_Init` writes the struct even
on failure, which is why a curve is returned in both cases).  `ResetCurve` is
the empty/zero profile produced by `SCurve_Reset`. -/
structure SCurveLib where
  Init : ℚ → ℚ → ℚ → ℚ → ℚ → ℚ → ℚ → SCurve_Result_t × SCurve_t
  CalcX : SCurve_t → ℚ → ℚ
  CalcV : SCurve_t → ℚ → ℚ
  CalcA : SCurve_t → ℚ → ℚ
  ResetCurve : SCurve_t

/-- Modelled from the spec: the actuator adapter of `interfaces/motor_if.h`
(not under `src/`): measured position (deg), measured velocity (deg/s) and the
velocity command reference (rpm) held by the velocity controller. -/
structure Motor_VelCtrl_t where
  angle : ℚ
  velocity : ℚ
  vel_ref : ℚ
  deriving DecidableEq, Repr

/-- Modelled from the spec: `GetMeasuredPosition`. -/
def MotorCtrl_GetAngle (m : Motor_VelCtrl_t) : ℚ := m.angle

/-- Modelled from the spec: `GetMeasuredVelocity`. -/
def MotorCtrl_GetVelocity (m : Motor_VelCtrl_t) : ℚ := m.velocity

/-- Modelled from the spec: `SetVelocityCommand` (native unit rpm). -/
def Motor_VelCtrl_SetRef (m : Motor_VelCtrl_t) (v : ℚ) : Motor_VelCtrl_t :=
  { m with vel_ref := v }

/-- Modelled from the spec: `ResetPositionReference` (zeroes the actuator's
internal position accumulator). -/
def MotorCtrl_ResetAngle (m : Motor_VelCtrl_t) : Motor_VelCtrl_t :=
  { m with angle := 0 }

/-- Modelled from the spec: configuration of the PD corrector
(`libs/pid_pd.h` is not under `src/`): gain parameters and the output limit
(`max_output`, in deg/s per the follower header's attention note). -/
structure PD_Config_t where
  kp : ℚ
  kd : ℚ
  max_output : ℚ
  deriving DecidableEq, Repr

/-- Modelled from the spec: the PD corrector state — immutable gain
parameters, settable reference and feedback fields, transient error memory
and the computed output. -/
structure PD_t where
  kp : ℚ
  kd : ℚ
  max_output : ℚ
  ref : ℚ
  fdb : ℚ
  last_err : ℚ
  output : ℚ
  deriving DecidableEq, Repr

/-- The all-zero PD struct: what `memset(&pd, 0, sizeof(pd))` leaves behind. -/
def PD_t.zero : PD_t :=
  { kp := 0, kd := 0, max_output := 0, ref := 0, fdb := 0, last_err := 0, output := 0 }

/-- Modelled from the spec: `PD_Init` stores the gain parameters and clears
the transient state. -/
def PD_Init (c : PD_Config_t) : PD_t :=
  { kp := c.kp, kd := c.kd, max_output := c.max_output,
    ref := 0, fdb := 0, last_err := 0, output := 0 }

/-- Modelled from the spec: `Compute() → output` of the proportional-derivative
law: error = reference − feedback; output = kp·err + kd·(err − previous err),
saturated at ±max_output; the error memory is updated. -/
def PD_Calculate (pd : PD_t) : PD_t :=
  let err := pd.ref - pd.fdb
  let raw := pd.kp * err + pd.kd * (err - pd.last_err)
  let out := max (-pd.max_output) (min pd.max_output raw)
  { pd with last_err := err, output := out }

/-- `DPS2RPM`: deg/s → rpm, `((x) / 360.0f * 60.0f)`. -/
def DPS2RPM (x : ℚ) : ℚ := x / 360 * 60

/-! ## Axis follower -/

/-- `SCurveTrajFollower_Axis_t`.  The C struct holds a pointer to the motor
velocity controller; here the pointed-to actuator object is embedded in the
state so that commands issued to it are visible. -/
structure SCurveTrajFollower_Axis_t where
  running : Bool
  update_interval : ℚ
  s : SCurve_t
  pd : PD_t
  ctrl : Motor_VelCtrl_t
  v_max : ℚ
  a_max : ℚ
  j_max : ℚ
  now : ℚ
  deriving DecidableEq, Repr

/-- `SCurveTrajFollower_AxisConfig_t`. -/
structure SCurveTrajFollower_AxisConfig_t where
  update_interval : ℚ
  error_pd : PD_Config_t
  motor_vel_ctrl : Motor_VelCtrl_t
  v_max : ℚ
  a_max : ℚ
  j_max : ℚ
  deriving DecidableEq, Repr

/-- `SCurveTraj_Axis_Init`: early-returns if `config->update_interval == 0`,
otherwise initializes the PD, stores the actuator handle and the limits, and
sets `now = 0`, `running = false`.  The curve field is not touched. -/
def SCurveTraj_Axis_Init (follower : SCurveTrajFollower_Axis_t)
    (config : SCurveTrajFollower_AxisConfig_t) : SCurveTrajFollower_Axis_t :=
  if config.update_interval = 0 then follower
  else
    { follower with
      pd := PD_Init config.error_pd
      ctrl := config.motor_vel_ctrl
      update_interval := config.update_interval
      v_max := config.v_max
      a_max := config.a_max
      j_max := config.j_max
      now := 0
      running := false }

/-- `SCurveTraj_Axis_Update`: no-op if not running; otherwise advance `now`
by one update interval, evaluate feedforward velocity and target position at
the new `now`, run the PD on (target, measured angle), and command the motor
with `DPS2RPM(ff + pd.output)`. -/
def SCurveTraj_Axis_Update (lib : SCurveLib)
    (follower : SCurveTrajFollower_Axis_t) : SCurveTrajFollower_Axis_t :=
  if !follower.running then follower
  else
    let now := follower.now + follower.update_interval
    let ff_velocity := lib.CalcV follower.s now
    let target := lib.CalcX follower.s now
    let pd1 := { follower.pd with ref := target, fdb := MotorCtrl_GetAngle follower.ctrl }
    let pd2 := PD_Calculate pd1
    let velocity := ff_velocity + pd2.output
    { follower with
      now := now
      pd := pd2
      ctrl := Motor_VelCtrl_SetRef follower.ctrl (DPS2RPM velocity) }

/-- `SCurveTraj_Axis_Stop`: `running = false`, zero velocity command,
`memset` of the PD struct. -/
def SCurveTraj_Axis_Stop (follower : SCurveTrajFollower_Axis_t) :
    SCurveTrajFollower_Axis_t :=
  { follower with
    running := false
    ctrl := Motor_VelCtrl_SetRef follower.ctrl 0
    pd := PD_t.zero }

/-- `SCurveTraj_Axis_ResetAll`: stop the curve, reset it to the zero profile,
`memset` the PD, zero velocity command, re-home the actuator angle. -/
def SCurveTraj_Axis_ResetAll (lib : SCurveLib)
    (follower : SCurveTrajFollower_Axis_t) : SCurveTrajFollower_Axis_t :=
  { follower with
    running := false
    s := lib.ResetCurve
    pd := PD_t.zero
    ctrl := MotorCtrl_ResetAngle (Motor_VelCtrl_SetRef follower.ctrl 0) }

/-- `axis_s_curve_init`: synthesize from the actuator's current measured
position and velocity toward `target`; start acceleration is the prior
curve's value at the current elapsed time if `running`, else 0. -/
def axis_s_curve_init (lib : SCurveLib) (follower : SCurveTrajFollower_Axis_t)
    (running : Bool) (target : ℚ) : SCurve_Result_t × SCurve_t :=
  lib.Init (MotorCtrl_GetAngle follower.ctrl)
           target
           (MotorCtrl_GetVelocity follower.ctrl)
           (if running then lib.CalcA follower.s follower.now else 0)
           follower.v_max
           follower.a_max
           follower.j_max

/-- `SCurveTraj_Axis_SetTarget`: capture prior running flag, clear it,
resynthesize (the curve struct is overwritten even on failure), reset `now`
to 0 unconditionally; on success set running, on failure force `Stop`. -/
def SCurveTraj_Axis_SetTarget (lib : SCurveLib)
    (follower : SCurveTrajFollower_Axis_t) (target : ℚ) :
    SCurve_Result_t × SCurveTrajFollower_Axis_t :=
  let running := follower.running
  let follower := { follower with running := false }
  let rs := axis_s_curve_init lib follower running target
  let follower := { follower with s := rs.2, now := 0 }
  if rs.1 = SCurve_Result_t.success then (rs.1, { follower with running := true })
  else (rs.1, SCurveTraj_Axis_Stop follower)

/-- `SCurveTraj_Axis_EstimateDuration`: synthesize into a temporary curve;
the follower (`const` in C) is returned unchanged alongside the estimate,
which is the temporary curve's total time on success and `-1.0` on failure. -/
def SCurveTraj_Axis_EstimateDuration (lib : SCurveLib)
    (follower : SCurveTrajFollower_Axis_t) (target : ℚ) :
    SCurveTrajFollower_Axis_t × ℚ :=
  let rs := axis_s_curve_init lib follower follower.running target
  if rs.1 ≠ SCurve_Result_t.success then (follower, -1)
  else (follower, rs.2.total_time)

/-- `SCurveTraj_isFinished` for an axis follower:
`running && now >= s.total_time`. -/
def SCurveTraj_isFinished_Axis (follower : SCurveTrajFollower_Axis_t) : Bool :=
  follower.running && decide (follower.s.total_time ≤ follower.now)

/-! ## Group follower -/

/-- `SCurveTrajFollower_GroupItem_t`: one actuator handle with its own PD. -/
structure SCurveTrajFollower_GroupItem_t where
  ctrl : Motor_VelCtrl_t
  pd : PD_t
  deriving DecidableEq, Repr

/-- `SCurveTrajFollower_GroupItem_Config_t`. -/
structure SCurveTrajFollower_GroupItem_Config_t where
  ctrl : Motor_VelCtrl_t
  error_pd : PD_Config_t
  deriving DecidableEq, Repr

/-- `SCurveTrajFollower_Group_t`: one shared curve, elapsed time and running
flag, plus the fixed-length item collection (`items`/`item_count` in C,
a `List` here — `item_count` is the list length). -/
structure SCurveTrajFollower_Group_t where
  running : Bool
  update_interval : ℚ
  s : SCurve_t
  v_max : ℚ
  a_max : ℚ
  j_max : ℚ
  items : List SCurveTrajFollower_GroupItem_t
  now : ℚ
  deriving DecidableEq, Repr

/-- `SCurveTrajFollower_GroupConfig_t`. -/
structure SCurveTrajFollower_GroupConfig_t where
  update_interval : ℚ
  item_configs : List SCurveTrajFollower_GroupItem_Config_t
  v_max : ℚ
  a_max : ℚ
  j_max : ℚ
  deriving DecidableEq, Repr

/-- `SCurveTraj_Group_Init`: early-returns if `config->update_interval == 0`;
otherwise takes over the item array, initializes each item's handle and PD
from its config, stores the limits, and sets `now = 0`, `running = false`. -/
def SCurveTraj_Group_Init (follower : SCurveTrajFollower_Group_t)
    (config : SCurveTrajFollower_GroupConfig_t) : SCurveTrajFollower_Group_t :=
  if config.update_interval = 0 then follower
  else
    { follower with
      items := config.item_configs.map fun c =>
        { ctrl := c.ctrl, pd := PD_Init c.error_pd }
      update_interval := config.update_interval
      v_max := config.v_max
      a_max := config.a_max
      j_max := config.j_max
      now := 0
      running := false }

/-- `SCurveTraj_Group_Update`: no-op if not running; otherwise advance `now`
by one interval, evaluate the shared curve once (one feedforward velocity and
one target position), then for each item run its own PD on (shared target,
that item's measured angle) and command that item's motor with
`DPS2RPM(ff + pd.output)`. -/
def SCurveTraj_Group_Update (lib : SCurveLib)
    (follower : SCurveTrajFollower_Group_t) : SCurveTrajFollower_Group_t :=
  if !follower.running then follower
  else
    let now := follower.now + follower.update_interval
    let ff_velocity := lib.CalcV follower.s now
    let target := lib.CalcX follower.s now
    let items := follower.items.map fun it =>
      let pd1 := { it.pd with ref := target, fdb := MotorCtrl_GetAngle it.ctrl }
      let pd2 := PD_Calculate pd1
      let velocity := ff_velocity + pd2.output
      { ctrl := Motor_VelCtrl_SetRef it.ctrl (DPS2RPM velocity), pd := pd2 }
    { follower with now := now, items := items }

/-- `SCurveTraj_Group_Stop`: `running = false`; for each item, zero velocity
command and `memset` of its PD. -/
def SCurveTraj_Group_Stop (follower : SCurveTrajFollower_Group_t) :
    SCurveTrajFollower_Group_t :=
  { follower with
    running := false
    items := follower.items.map fun it =>
      { ctrl := Motor_VelCtrl_SetRef it.ctrl 0, pd := PD_t.zero } }

/-- `SCurveTraj_Group_ResetAll`: stop, reset the shared curve to the zero
profile, and for each item `memset` its PD, zero its command and re-home its
angle. -/
def SCurveTraj_Group_ResetAll (lib : SCurveLib)
    (follower : SCurveTrajFollower_Group_t) : SCurveTrajFollower_Group_t :=
  { follower with
    running := false
    s := lib.ResetCurve
    items := follower.items.map fun it =>
      { ctrl := MotorCtrl_ResetAngle (Motor_VelCtrl_SetRef it.ctrl 0)
        pd := PD_t.zero } }

/-- The consensus start state computed by `group_s_curve_init`: the position
and velocity sums over all items, each divided by `item_count` — with no
guard against `item_count == 0`. -/
def group_consensus (items : List SCurveTrajFollower_GroupItem_t) : ℚ × ℚ :=
  let start_position := (items.map fun it => MotorCtrl_GetAngle it.ctrl).sum
  let start_velocity := (items.map fun it => MotorCtrl_GetVelocity it.ctrl).sum
  (start_position / (items.length : ℚ), start_velocity / (items.length : ℚ))

/-- `group_s_curve_init`: synthesize from the consensus start position and
velocity toward `target`; start acceleration is the prior shared curve's value
at the current elapsed time if `running`, else 0. -/
def group_s_curve_init (lib : SCurveLib) (follower : SCurveTrajFollower_Group_t)
    (running : Bool) (target : ℚ) : SCurve_Result_t × SCurve_t :=
  lib.Init (group_consensus follower.items).1
           target
           (group_consensus follower.items).2
           (if running then lib.CalcA follower.s follower.now else 0)
           follower.v_max
           follower.a_max
           follower.j_max

/-- `SCurveTraj_Group_SetTarget`: same policy as the axis version — capture
prior running flag, clear it, resynthesize (curve overwritten even on
failure), reset `now` to 0 unconditionally, activate on success, force `Stop`
on failure. -/
def SCurveTraj_Group_SetTarget (lib : SCurveLib)
    (follower : SCurveTrajFollower_Group_t) (target : ℚ) :
    SCurve_Result_t × SCurveTrajFollower_Group_t :=
  let running := follower.running
  let follower := { follower with running := false }
  let rs := group_s_curve_init lib follower running target
  let follower := { follower with s := rs.2, now := 0 }
  if rs.1 = SCurve_Result_t.success then (rs.1, { follower with running := true })
  else (rs.1, SCurveTraj_Group_Stop follower)

/-- `SCurveTraj_Group_EstimateDuration`: synthesize into a temporary curve;
the follower is returned unchanged alongside the estimate, which is the
temporary curve's total time on success and `-1.0` on failure. -/
def SCurveTraj_Group_EstimateDuration (lib : SCurveLib)
    (follower : SCurveTrajFollower_Group_t) (target : ℚ) :
    SCurveTrajFollower_Group_t × ℚ :=
  let rs := group_s_curve_init lib follower follower.running target
  if rs.1 ≠ SCurve_Result_t.success then (follower, -1)
  else (follower, rs.2.total_time)

/-- `SCurveTraj_isFinished` for a group follower. -/
def SCurveTraj_isFinished_Group (follower : SCurveTrajFollower_Group_t) : Bool :=
  follower.running && decide (follower.s.total_time ≤ follower.now)

/-- The arithmetic mean of a list of rationals (the spec's notion of the
consensus kinematic point). -/
def arithmeticMean (xs : List ℚ) : ℚ := xs.sum / (xs.length : ℚ)

/-! ## Concrete instantiations used by witnesses and counterexamples -/

/-- A curve library whose synthesis always succeeds, with evaluation
functions chosen so that distinct arguments are observable. -/
def okLib : SCurveLib :=
  { Init := fun x0 x1 v0 a0 vmax amax jmax =>
      (SCurve_Result_t.success, ⟨x0 + 2 * x1 + 3 * v0 + 5 * a0 + 7 * vmax + 11 * amax + 13 * jmax⟩)
    CalcX := fun s t => s.total_time + t
    CalcV := fun s t => s.total_time - t
    CalcA := fun s t => s.total_time * t
    ResetCurve := ⟨0⟩ }

/-- A curve library whose synthesis always fails, scribbling a recognizable
value into the output curve (synthesis failure corrupts the curve struct). -/
def failLib : SCurveLib :=
  { Init := fun _ _ _ _ _ _ _ => (SCurve_Result_t.failure, ⟨99⟩)
    CalcX := fun s t => s.total_time + t
    CalcV := fun s t => s.total_time - t
    CalcA := fun s t => s.total_time * t
    ResetCurve := ⟨0⟩ }

/-- A sample PD state with nonzero gains and a wide output limit. -/
def samplePD : PD_t :=
  { kp := 2, kd := 1, max_output := 1000, ref := 0, fdb := 0, last_err := 0, output := 0 }

/-- A sample axis follower state, mid-motion at elapsed time 5. -/
def sampleAxis : SCurveTrajFollower_Axis_t :=
  { running := true
    update_interval := 1 / 100
    s := ⟨4⟩
    pd := samplePD
    ctrl := { angle := 30, velocity := 12, vel_ref := 3 }
    v_max := 180
    a_max := 360
    j_max := 720
    now := 5 }

/-- A sample group follower state with two desynchronized items. -/
def sampleGroup : SCurveTrajFollower_Group_t :=
  { running := true
    update_interval := 1 / 100
    s := ⟨4⟩
    v_max := 180
    a_max := 360
    j_max := 720
    items :=
      [ { ctrl := { angle := 30, velocity := 12, vel_ref := 3 }, pd := samplePD }
      , { ctrl := { angle := 31, velocity := 10, vel_ref := 3 }, pd := samplePD } ]
    now := 5 }

/-- An axis follower that is not running (used by witnesses). -/
def stoppedAxis : SCurveTrajFollower_Axis_t :=
  { sampleAxis with running := false }

/-! ## Claims -/

/-- C1: For every AxisFollower, `SCurveTraj_Axis_SetTarget` resynthesizes the
curve with start position = the actuator's current measured position and
start velocity = its current measured velocity; the start acceleration passed
to synthesis is the prior curve's evaluated acceleration at the prior elapsed
time if the follower was running at the call, and 0 otherwise.  Stated for an
arbitrary curve library, so the equality can only hold because precisely
these values are routed into `SCurve_Init`; the result code returned by
`SetTarget` is the code of that same synthesis call. -/
theorem C1_setTarget_resynthesis (lib : SCurveLib)
    (f : SCurveTrajFollower_Axis_t) (target : ℚ) :
    (SCurveTraj_Axis_SetTarget lib f target).2.s =
      (lib.Init (MotorCtrl_GetAngle f.ctrl) target (MotorCtrl_GetVelocity f.ctrl)
        (if f.running then lib.CalcA f.s f.now else 0)
        f.v_max f.a_max f.j_max).2 ∧
    (SCurveTraj_Axis_SetTarget lib f target).1 =
      (lib.Init (MotorCtrl_GetAngle f.ctrl) target (MotorCtrl_GetVelocity f.ctrl)
        (if f.running then lib.CalcA f.s f.now else 0)
        f.v_max f.a_max f.j_max).1 := by
  unfold SCurveTraj_Axis_SetTarget axis_s_curve_init SCurveTraj_Axis_Stop
  dsimp only
  split <;> (split <;> simp)

/-- C3 counterexample: a `SetTarget` call whose synthesis fails (so no new
curve is accepted) nevertheless resets the elapsed time from 5 to 0 — so
elapsed time is not reset *only* by operations that accept a new curve. -/
theorem C3_counterexample :
    (SCurveTraj_Axis_SetTarget failLib sampleAxis 10).1 ≠ SCurve_Result_t.success ∧
    sampleAxis.now = 5 ∧
    (SCurveTraj_Axis_SetTarget failLib sampleAxis 10).2.now = 0 := by
  refine ⟨?_, rfl, ?_⟩ <;> decide

/-- C3 amended: elapsed time is reset to 0 by every `SetTarget` call
unconditionally — on synthesis failure as well as success — and by `Init`
with a nonzero update interval; `Stop` and `ResetAll` leave elapsed time
unchanged, and `Update` only advances it (by one update interval while
running).  Likewise for the group follower. -/
theorem C3_elapsed_reset_policy (lib : SCurveLib)
    (f : SCurveTrajFollower_Axis_t) (ca : SCurveTrajFollower_AxisConfig_t)
    (g : SCurveTrajFollower_Group_t) (cg : SCurveTrajFollower_GroupConfig_t)
    (target : ℚ) :
    (SCurveTraj_Axis_SetTarget lib f target).2.now = 0 ∧
    (SCurveTraj_Axis_Init f ca).now = (if ca.update_interval = 0 then f.now else 0) ∧
    (SCurveTraj_Axis_Stop f).now = f.now ∧
    (SCurveTraj_Axis_ResetAll lib f).now = f.now ∧
    (SCurveTraj_Axis_Update lib f).now =
      (if f.running then f.now + f.update_interval else f.now) ∧
    (SCurveTraj_Group_SetTarget lib g target).2.now = 0 ∧
    (SCurveTraj_Group_Init g cg).now = (if cg.update_interval = 0 then g.now else 0) ∧
    (SCurveTraj_Group_Stop g).now = g.now ∧
    (SCurveTraj_Group_ResetAll lib g).now = g.now ∧
    (SCurveTraj_Group_Update lib g).now =
      (if g.running then g.now + g.update_interval else g.now) := by
  refine ⟨?_, ?_, rfl, rfl, ?_, ?_, ?_, rfl, rfl, ?_⟩
  · unfold SCurveTraj_Axis_SetTarget SCurveTraj_Axis_Stop
    dsimp only
    split <;> simp
  · unfold SCurveTraj_Axis_Init
    split <;> simp
  · unfold SCurveTraj_Axis_Update
    cases hr : f.running <;> simp [hr]
  · unfold SCurveTraj_Group_SetTarget SCurveTraj_Group_Stop
    dsimp only
    split <;> simp
  · unfold SCurveTraj_Group_Init
    split <;> simp
  · unfold SCurveTraj_Group_Update
    cases hr : g.running <;> simp [hr]

/-- C4: the finished predicate is a pure derived condition — true iff
`running` is true and elapsed ≥ the curve's total duration; immediately after
`Stop` it is false (running has been cleared) even when elapsed ≥ total
duration; and it is never auto-cleared by `Update`: while the follower keeps
running, once true it stays true across subsequent ticks.  Both for the axis
and for the group follower. -/
theorem C4_isFinished_characterisation (lib : SCurveLib)
    (f : SCurveTrajFollower_Axis_t) (g : SCurveTrajFollower_Group_t) :
    (SCurveTraj_isFinished_Axis f = true ↔
      f.running = true ∧ f.s.total_time ≤ f.now) ∧
    SCurveTraj_isFinished_Axis (SCurveTraj_Axis_Stop f) = false ∧
    (0 ≤ f.update_interval → SCurveTraj_isFinished_Axis f = true →
      SCurveTraj_isFinished_Axis (SCurveTraj_Axis_Update lib f) = true) ∧
    (SCurveTraj_isFinished_Group g = true ↔
      g.running = true ∧ g.s.total_time ≤ g.now) ∧
    SCurveTraj_isFinished_Group (SCurveTraj_Group_Stop g) = false ∧
    (0 ≤ g.update_interval → SCurveTraj_isFinished_Group g = true →
      SCurveTraj_isFinished_Group (SCurveTraj_Group_Update lib g) = true) := by
  refine ⟨?_, ?_, ?_, ?_, ?_, ?_⟩
  · simp [SCurveTraj_isFinished_Axis]
  · simp [SCurveTraj_isFinished_Axis, SCurveTraj_Axis_Stop]
  · intro hdt hfin
    rw [SCurveTraj_isFinished_Axis, Bool.and_eq_true, decide_eq_true_eq] at hfin
    obtain ⟨hrun, hle⟩ := hfin
    rw [SCurveTraj_isFinished_Axis]
    unfold SCurveTraj_Axis_Update
    rw [hrun]
    simp only [Bool.not_true, Bool.false_eq_true, if_false]
    simp only [hrun, Bool.true_and, decide_eq_true_eq]
    exact le_trans hle (le_add_of_nonneg_right hdt)
  · simp [SCurveTraj_isFinished_Group]
  · simp [SCurveTraj_isFinished_Group, SCurveTraj_Group_Stop]
  · intro hdt hfin
    rw [SCurveTraj_isFinished_Group, Bool.and_eq_true, decide_eq_true_eq] at hfin
    obtain ⟨hrun, hle⟩ := hfin
    rw [SCurveTraj_isFinished_Group]
    unfold SCurveTraj_Group_Update
    rw [hrun]
    simp only [Bool.not_true, Bool.false_eq_true, if_false]
    simp only [hrun, Bool.true_and, decide_eq_true_eq]
    exact le_trans hle (le_add_of_nonneg_right hdt)

/-- C4 witness: on a concrete finished running axis and group, one more
`Update` tick keeps the finished predicate true (applies the persistence
clauses at concrete inputs, discharging the hypotheses there). -/
theorem C4_isFinished_witness :
    SCurveTraj_isFinished_Axis (SCurveTraj_Axis_Update okLib sampleAxis) = true ∧
    SCurveTraj_isFinished_Group (SCurveTraj_Group_Update okLib sampleGroup) = true :=
  ⟨(C4_isFinished_characterisation okLib sampleAxis sampleGroup).2.2.1
      (by norm_num [sampleAxis]) (by decide),
   (C4_isFinished_characterisation okLib sampleAxis sampleGroup).2.2.2.2.2
      (by norm_num [sampleGroup]) (by decide)⟩

/-- C6: `EstimateDuration` leaves the follower state unchanged (the embedded
functions return the follower alongside the estimate; the returned follower
is the input one, every field included), and the returned value is the
synthesized temporary curve's total duration on success and the sentinel
`-1.0` on failure — for both the axis and the group follower. -/
theorem C6_estimateDuration_frame (lib : SCurveLib)
    (f : SCurveTrajFollower_Axis_t) (g : SCurveTrajFollower_Group_t) (t u : ℚ) :
    (SCurveTraj_Axis_EstimateDuration lib f t).1 = f ∧
    (SCurveTraj_Group_EstimateDuration lib g u).1 = g ∧
    (SCurveTraj_Axis_EstimateDuration lib f t).2 =
      (if (axis_s_curve_init lib f f.running t).1 = SCurve_Result_t.success
       then (axis_s_curve_init lib f f.running t).2.total_time else -1) ∧
    (SCurveTraj_Group_EstimateDuration lib g u).2 =
      (if (group_s_curve_init lib g g.running u).1 = SCurve_Result_t.success
       then (group_s_curve_init lib g g.running u).2.total_time else -1) := by
  refine ⟨?_, ?_, ?_, ?_⟩
  · unfold SCurveTraj_Axis_EstimateDuration
    dsimp only
    split <;> rfl
  · unfold SCurveTraj_Group_EstimateDuration
    dsimp only
    split <;> rfl
  · unfold SCurveTraj_Axis_EstimateDuration
    dsimp only
    split <;> simp_all
  · unfold SCurveTraj_Group_EstimateDuration
    dsimp only
    split <;> simp_all

/-! ## Helper lemmas shared by several claims -/

/-- `axis_s_curve_init` reads only fields that a `running`-update leaves
untouched. -/
lemma axis_s_curve_init_running_update (lib : SCurveLib)
    (f : SCurveTrajFollower_Axis_t) (b r : Bool) (t : ℚ) :
    axis_s_curve_init lib { f with running := b } r t =
      axis_s_curve_init lib f r t := rfl

/-- Closed-form description of `SCurveTraj_Axis_SetTarget`. -/
lemma SCurveTraj_Axis_SetTarget_eq (lib : SCurveLib)
    (f : SCurveTrajFollower_Axis_t) (t : ℚ) :
    SCurveTraj_Axis_SetTarget lib f t =
      (let rs := axis_s_curve_init lib f f.running t
       if rs.1 = SCurve_Result_t.success
       then (rs.1, { f with s := rs.2, now := 0, running := true })
       else (rs.1,
             { f with s := rs.2, now := 0, running := false, pd := PD_t.zero,
                      ctrl := Motor_VelCtrl_SetRef f.ctrl 0 })) := rfl

/-- Closed-form description of `SCurveTraj_Group_SetTarget`. -/
lemma SCurveTraj_Group_SetTarget_eq (lib : SCurveLib)
    (g : SCurveTrajFollower_Group_t) (t : ℚ) :
    SCurveTraj_Group_SetTarget lib g t =
      (let rs := group_s_curve_init lib g g.running t
       if rs.1 = SCurve_Result_t.success
       then (rs.1, { g with s := rs.2, now := 0, running := true })
       else (rs.1,
             { g with s := rs.2, now := 0, running := false,
                      items := g.items.map fun it =>
                        { ctrl := Motor_VelCtrl_SetRef it.ctrl 0, pd := PD_t.zero } })) := rfl

/-- C2: on synthesis failure, `SetTarget` leaves the follower stopped
regardless of the prior running state — `running` is false, a zero velocity
command is issued to every actuator, the corrector state is cleared — and
`SetTarget` returns the synthesis result code.  For both follower kinds. -/
theorem C2_failure_forces_stop (lib : SCurveLib)
    (f : SCurveTrajFollower_Axis_t) (g : SCurveTrajFollower_Group_t) (t u : ℚ)
    (ha : (SCurveTraj_Axis_SetTarget lib f t).1 ≠ SCurve_Result_t.success)
    (hg : (SCurveTraj_Group_SetTarget lib g u).1 ≠ SCurve_Result_t.success) :
    ((SCurveTraj_Axis_SetTarget lib f t).2.running = false ∧
     (SCurveTraj_Axis_SetTarget lib f t).2.ctrl.vel_ref = 0 ∧
     (SCurveTraj_Axis_SetTarget lib f t).2.pd = PD_t.zero ∧
     (SCurveTraj_Axis_SetTarget lib f t).1 = (axis_s_curve_init lib f f.running t).1) ∧
    ((SCurveTraj_Group_SetTarget lib g u).2.running = false ∧
     (∀ it ∈ (SCurveTraj_Group_SetTarget lib g u).2.items,
        it.ctrl.vel_ref = 0 ∧ it.pd = PD_t.zero) ∧
     (SCurveTraj_Group_SetTarget lib g u).1 = (group_s_curve_init lib g g.running u).1) := by
  rw [SCurveTraj_Axis_SetTarget_eq] at ha
  rw [SCurveTraj_Group_SetTarget_eq] at hg
  dsimp only at ha hg
  constructor
  · by_cases hc : (axis_s_curve_init lib f f.running t).1 = SCurve_Result_t.success
    · rw [if_pos hc] at ha
      exact absurd hc ha
    · rw [SCurveTraj_Axis_SetTarget_eq]
      dsimp only
      rw [if_neg hc]
      exact ⟨rfl, rfl, rfl, rfl⟩
  · by_cases hc : (group_s_curve_init lib g g.running u).1 = SCurve_Result_t.success
    · rw [if_pos hc] at hg
      exact absurd hc hg
    · rw [SCurveTraj_Group_SetTarget_eq]
      dsimp only
      rw [if_neg hc]
      refine ⟨rfl, ?_, rfl⟩
      intro it hit
      simp only [List.mem_map] at hit
      obtain ⟨x, -, rfl⟩ := hit
      exact ⟨rfl, rfl⟩

/-- C2 witness: on a concrete failing synthesis, both followers end up
stopped with the failure code returned. -/
theorem C2_failure_forces_stop_witness :
    (SCurveTraj_Axis_SetTarget failLib sampleAxis 10).2.running = false ∧
    (SCurveTraj_Group_SetTarget failLib sampleGroup 10).2.running = false :=
  ⟨(C2_failure_forces_stop failLib sampleAxis sampleGroup 10 10
      (by decide) (by decide)).1.1,
   (C2_failure_forces_stop failLib sampleAxis sampleGroup 10 10
      (by decide) (by decide)).2.1⟩

/-- The group synthesis call as the spec describes it: the start position and
velocity fed to `SCurve_Init` are the arithmetic means of the items'
measured positions and velocities (the virtual consensus point). -/
def groupSynthesisSpec (lib : SCurveLib) (g : SCurveTrajFollower_Group_t)
    (running : Bool) (target : ℚ) : SCurve_Result_t × SCurve_t :=
  lib.Init (arithmeticMean (g.items.map fun it => MotorCtrl_GetAngle it.ctrl))
           target
           (arithmeticMean (g.items.map fun it => MotorCtrl_GetVelocity it.ctrl))
           (if running then lib.CalcA g.s g.now else 0)
           g.v_max
           g.a_max
           g.j_max

/-- The synthesis performed by the code equals the spec-side description:
summing then dividing by `item_count` is the arithmetic mean. -/
lemma group_s_curve_init_eq_spec (lib : SCurveLib)
    (g : SCurveTrajFollower_Group_t) (running : Bool) (target : ℚ) :
    group_s_curve_init lib g running target = groupSynthesisSpec lib g running target := by
  unfold group_s_curve_init groupSynthesisSpec group_consensus arithmeticMean
  simp [List.length_map]

/-- C5: for a GroupFollower with at least one item, both `SetTarget` and
`EstimateDuration` feed curve synthesis the arithmetic means over all items
of the actuators' measured positions and velocities as start position and
start velocity (stated over an arbitrary curve library: the accepted curve
and the returned code/duration are the ones produced by exactly that call). -/
theorem C5_group_consensus_mean (lib : SCurveLib)
    (g : SCurveTrajFollower_Group_t) (t : ℚ) (h : g.items ≠ []) :
    (SCurveTraj_Group_SetTarget lib g t).2.s = (groupSynthesisSpec lib g g.running t).2 ∧
    (SCurveTraj_Group_SetTarget lib g t).1 = (groupSynthesisSpec lib g g.running t).1 ∧
    (SCurveTraj_Group_EstimateDuration lib g t).2 =
      (if (groupSynthesisSpec lib g g.running t).1 = SCurve_Result_t.success
       then (groupSynthesisSpec lib g g.running t).2.total_time else -1) := by
  rw [SCurveTraj_Group_SetTarget_eq]
  unfold SCurveTraj_Group_EstimateDuration
  rw [group_s_curve_init_eq_spec]
  dsimp only
  refine ⟨?_, ?_, ?_⟩
  · split <;> rfl
  · split <;> rfl
  · split <;> simp_all

/-- C5 witness: on a concrete two-item group, the curve accepted by
`SetTarget` is the one synthesized from the consensus means. -/
theorem C5_group_consensus_mean_witness :
    (SCurveTraj_Group_SetTarget okLib sampleGroup 10).2.s =
      (groupSynthesisSpec okLib sampleGroup sampleGroup.running 10).2 :=
  (C5_group_consensus_mean okLib sampleGroup 10 (by decide)).1

/-- Saturation is inactive when the raw value is within the limit. -/
lemma clamp_eq_self (c x : ℚ) (h : |x| ≤ c) : max (-c) (min c x) = x := by
  rcases abs_le.mp h with ⟨h1, h2⟩
  rw [min_eq_right h2, max_eq_right h1]

/-- The dps → rpm conversion is injective: distinct velocities in deg/s give
distinct commands in rpm. -/
lemma DPS2RPM_inj (x y : ℚ) (h : DPS2RPM x = DPS2RPM y) : x = y := by
  unfold DPS2RPM at h
  field_simp at h
  linarith

/-- Closed-form description of a `SCurveTraj_Group_Update` tick while
running: the shared curve is evaluated once, and every item's command is
that single feedforward plus its own PD output. -/
lemma SCurveTraj_Group_Update_eq (lib : SCurveLib)
    (g : SCurveTrajFollower_Group_t) (h : g.running = true) :
    SCurveTraj_Group_Update lib g =
      { g with
        now := g.now + g.update_interval
        items := g.items.map fun it =>
          let pd2 := PD_Calculate
            { it.pd with ref := lib.CalcX g.s (g.now + g.update_interval)
                         fdb := MotorCtrl_GetAngle it.ctrl }
          { ctrl := Motor_VelCtrl_SetRef it.ctrl
              (DPS2RPM (lib.CalcV g.s (g.now + g.update_interval) + pd2.output))
            pd := pd2 } } := by
  unfold SCurveTraj_Group_Update
  rw [h]
  rfl

/-- C7: in every GroupFollower `Update` tick while running, the shared curve
is evaluated exactly once — every item's PD receives the identical target
position as reference, and every item's command is the identical feedforward
velocity plus that item's own correction computed from its own measured
position.  Consequently (second conjunct, for a two-item group with a shared
corrector state, nonzero combined gain and no output saturation), supplying
distinct per-item measured positions yields distinct per-item commanded
velocities while the feedforward component is identical across items. -/
theorem C7_group_update_shared_feedforward (lib : SCurveLib)
    (g : SCurveTrajFollower_Group_t) :
    (g.running = true →
      (SCurveTraj_Group_Update lib g).items = g.items.map fun it =>
        let pd2 := PD_Calculate
          { it.pd with ref := lib.CalcX g.s (g.now + g.update_interval)
                       fdb := MotorCtrl_GetAngle it.ctrl }
        { ctrl := Motor_VelCtrl_SetRef it.ctrl
            (DPS2RPM (lib.CalcV g.s (g.now + g.update_interval) + pd2.output))
          pd := pd2 }) ∧
    (∀ (pd : PD_t) (m1 m2 : Motor_VelCtrl_t),
      g.running = true →
      g.items = [{ ctrl := m1, pd := pd }, { ctrl := m2, pd := pd }] →
      m1.angle ≠ m2.angle →
      pd.kp + pd.kd ≠ 0 →
      |pd.kp * (lib.CalcX g.s (g.now + g.update_interval) - m1.angle) +
        pd.kd * ((lib.CalcX g.s (g.now + g.update_interval) - m1.angle) - pd.last_err)| ≤
          pd.max_output →
      |pd.kp * (lib.CalcX g.s (g.now + g.update_interval) - m2.angle) +
        pd.kd * ((lib.CalcX g.s (g.now + g.update_interval) - m2.angle) - pd.last_err)| ≤
          pd.max_output →
      ∃ v1 v2,
        ((SCurveTraj_Group_Update lib g).items.map fun it => it.ctrl.vel_ref) = [v1, v2] ∧
        v1 ≠ v2) := by
  constructor
  · intro h
    rw [SCurveTraj_Group_Update_eq lib g h]
  · intro pd m1 m2 hrun hitems hangle hk hs1 hs2
    rw [SCurveTraj_Group_Update_eq lib g hrun]
    dsimp only
    rw [hitems]
    simp only [List.map_cons, List.map_nil]
    refine ⟨_, _, rfl, ?_⟩
    intro heq
    have hout := DPS2RPM_inj _ _ heq
    simp only [PD_Calculate, MotorCtrl_GetAngle, add_right_injective] at hout
    rw [clamp_eq_self _ _ hs1, clamp_eq_self _ _ hs2] at hout
    have hraw : pd.kp * (lib.CalcX g.s (g.now + g.update_interval) - m1.angle) +
        pd.kd * ((lib.CalcX g.s (g.now + g.update_interval) - m1.angle) - pd.last_err) =
        pd.kp * (lib.CalcX g.s (g.now + g.update_interval) - m2.angle) +
        pd.kd * ((lib.CalcX g.s (g.now + g.update_interval) - m2.angle) - pd.last_err) := by
      linarith
    have hfac : (pd.kp + pd.kd) * (m2.angle - m1.angle) = 0 := by linear_combination hraw
    exact mul_ne_zero hk (sub_ne_zero.mpr (Ne.symm hangle)) hfac

/-- C7 witness: on the concrete two-item group (angles 30 and 31), one tick
sends two distinct velocity commands. -/
theorem C7_group_update_shared_feedforward_witness :
    ∃ v1 v2,
      ((SCurveTraj_Group_Update okLib sampleGroup).items.map fun it => it.ctrl.vel_ref) =
        [v1, v2] ∧ v1 ≠ v2 :=
  (C7_group_update_shared_feedforward okLib sampleGroup).2 samplePD
    { angle := 30, velocity := 12, vel_ref := 3 }
    { angle := 31, velocity := 10, vel_ref := 3 }
    rfl rfl (by norm_num) (by norm_num [samplePD])
    (by norm_num [samplePD, sampleGroup, okLib, abs_le])
    (by norm_num [samplePD, sampleGroup, okLib, abs_le])

/-- C8: `SCurveTraj_Axis_Update` is a no-op when not running; when running it
advances elapsed time by exactly one update interval, evaluates feedforward
velocity and target position at the new elapsed time, and commands the
actuator with velocity = feedforward + correction converted by
`rpm = dps / 360 * 60`. -/
theorem C8_axis_update_semantics (lib : SCurveLib)
    (f : SCurveTrajFollower_Axis_t) :
    (f.running = false → SCurveTraj_Axis_Update lib f = f) ∧
    (f.running = true →
      (SCurveTraj_Axis_Update lib f).now = f.now + f.update_interval ∧
      (SCurveTraj_Axis_Update lib f).ctrl.vel_ref =
        DPS2RPM (lib.CalcV f.s (f.now + f.update_interval) +
          (PD_Calculate
            { f.pd with ref := lib.CalcX f.s (f.now + f.update_interval)
                        fdb := MotorCtrl_GetAngle f.ctrl }).output)) ∧
    (∀ x : ℚ, DPS2RPM x = x / 360 * 60) := by
  refine ⟨?_, ?_, fun x => rfl⟩
  · intro h
    unfold SCurveTraj_Axis_Update
    rw [h]
    rfl
  · intro h
    unfold SCurveTraj_Axis_Update
    rw [h]
    exact ⟨rfl, rfl⟩

/-- C8 witness: the no-op branch on a concrete stopped axis and the
elapsed-time advance on a concrete running axis. -/
theorem C8_axis_update_semantics_witness :
    SCurveTraj_Axis_Update okLib stoppedAxis = stoppedAxis ∧
    (SCurveTraj_Axis_Update okLib sampleAxis).now =
      sampleAxis.now + sampleAxis.update_interval :=
  ⟨(C8_axis_update_semantics okLib stoppedAxis).1 rfl,
   ((C8_axis_update_semantics okLib sampleAxis).2.1 rfl).1⟩

/-- A sample axis configuration with a valid (nonzero) update interval. -/
def sampleAxisConfig : SCurveTrajFollower_AxisConfig_t :=
  { update_interval := 1 / 100
    error_pd := { kp := 2, kd := 1, max_output := 1000 }
    motor_vel_ctrl := { angle := 0, velocity := 0, vel_ref := 0 }
    v_max := 180
    a_max := 360
    j_max := 720 }

/-- The same axis configuration with update interval 0 (rejected by `Init`). -/
def zeroAxisConfig : SCurveTrajFollower_AxisConfig_t :=
  { sampleAxisConfig with update_interval := 0 }

/-- A sample group configuration with two items and a valid interval. -/
def sampleGroupConfig : SCurveTrajFollower_GroupConfig_t :=
  { update_interval := 1 / 100
    item_configs :=
      [ { ctrl := { angle := 0, velocity := 0, vel_ref := 0 }
          error_pd := { kp := 2, kd := 1, max_output := 1000 } }
      , { ctrl := { angle := 1, velocity := 0, vel_ref := 0 }
          error_pd := { kp := 2, kd := 1, max_output := 1000 } } ]
    v_max := 180
    a_max := 360
    j_max := 720 }

/-- The same group configuration with update interval 0. -/
def zeroGroupConfig : SCurveTrajFollower_GroupConfig_t :=
  { sampleGroupConfig with update_interval := 0 }

/-- C9: `Init` with update interval 0 is a no-op (the follower is returned
exactly as it was, so no configuration is applied and `running` keeps
whatever it was); with a nonzero interval it stores the limits and actuator
handle(s), initializes the corrector(s) from the config, and sets elapsed
time 0 and `running = false`.  For both follower kinds. -/
theorem C9_init_semantics (f : SCurveTrajFollower_Axis_t)
    (ca : SCurveTrajFollower_AxisConfig_t)
    (g : SCurveTrajFollower_Group_t)
    (cg : SCurveTrajFollower_GroupConfig_t) :
    (ca.update_interval = 0 → SCurveTraj_Axis_Init f ca = f) ∧
    (ca.update_interval ≠ 0 →
      (SCurveTraj_Axis_Init f ca).running = false ∧
      (SCurveTraj_Axis_Init f ca).now = 0 ∧
      (SCurveTraj_Axis_Init f ca).update_interval = ca.update_interval ∧
      (SCurveTraj_Axis_Init f ca).v_max = ca.v_max ∧
      (SCurveTraj_Axis_Init f ca).a_max = ca.a_max ∧
      (SCurveTraj_Axis_Init f ca).j_max = ca.j_max ∧
      (SCurveTraj_Axis_Init f ca).ctrl = ca.motor_vel_ctrl ∧
      (SCurveTraj_Axis_Init f ca).pd = PD_Init ca.error_pd) ∧
    (cg.update_interval = 0 → SCurveTraj_Group_Init g cg = g) ∧
    (cg.update_interval ≠ 0 →
      (SCurveTraj_Group_Init g cg).running = false ∧
      (SCurveTraj_Group_Init g cg).now = 0 ∧
      (SCurveTraj_Group_Init g cg).update_interval = cg.update_interval ∧
      (SCurveTraj_Group_Init g cg).v_max = cg.v_max ∧
      (SCurveTraj_Group_Init g cg).a_max = cg.a_max ∧
      (SCurveTraj_Group_Init g cg).j_max = cg.j_max ∧
      (SCurveTraj_Group_Init g cg).items =
        cg.item_configs.map fun c => { ctrl := c.ctrl, pd := PD_Init c.error_pd }) := by
  refine ⟨?_, ?_, ?_, ?_⟩
  · intro h
    unfold SCurveTraj_Axis_Init
    rw [if_pos h]
  · intro h
    unfold SCurveTraj_Axis_Init
    rw [if_neg h]
    exact ⟨rfl, rfl, rfl, rfl, rfl, rfl, rfl, rfl⟩
  · intro h
    unfold SCurveTraj_Group_Init
    rw [if_pos h]
  · intro h
    unfold SCurveTraj_Group_Init
    rw [if_neg h]
    exact ⟨rfl, rfl, rfl, rfl, rfl, rfl, rfl⟩

/-- C9 witness: concrete zero-interval configs are rejected as no-ops and
concrete valid configs yield elapsed 0 (and running false). -/
theorem C9_init_semantics_witness :
    SCurveTraj_Axis_Init sampleAxis zeroAxisConfig = sampleAxis ∧
    (SCurveTraj_Axis_Init sampleAxis sampleAxisConfig).now = 0 ∧
    SCurveTraj_Group_Init sampleGroup zeroGroupConfig = sampleGroup ∧
    (SCurveTraj_Group_Init sampleGroup sampleGroupConfig).now = 0 :=
  ⟨(C9_init_semantics sampleAxis zeroAxisConfig sampleGroup zeroGroupConfig).1 rfl,
   ((C9_init_semantics sampleAxis sampleAxisConfig sampleGroup sampleGroupConfig).2.1
      (by norm_num [sampleAxisConfig])).2.1,
   (C9_init_semantics sampleAxis zeroAxisConfig sampleGroup zeroGroupConfig).2.2.1 rfl,
   ((C9_init_semantics sampleAxis sampleAxisConfig sampleGroup sampleGroupConfig).2.2.2
      (by norm_num [sampleGroupConfig])).2.1⟩

/-- A group follower with an empty item collection. -/
def emptyGroup : SCurveTrajFollower_Group_t :=
  { sampleGroup with items := [] }

/-- C10: the consensus start-state computation divides the accumulated sums
by `item_count` with no zero guard — `group_s_curve_init` always calls
synthesis with start arguments of the form `sum / item_count` (first
conjunct, also when the item list is empty), the divisor is 0 when
`item_count = 0` (second conjunct; over ℚ the division is then the
totalized `x / 0`, where the C float code would divide by zero), and under
the precondition `item_count > 0` the fed start state is the well-defined
arithmetic mean (third conjunct). -/
theorem C10_consensus_division (lib : SCurveLib)
    (g : SCurveTrajFollower_Group_t) (running : Bool) (t : ℚ) :
    group_s_curve_init lib g running t =
      lib.Init ((g.items.map fun it => MotorCtrl_GetAngle it.ctrl).sum / ((g.items.length : ℚ)))
        t
        ((g.items.map fun it => MotorCtrl_GetVelocity it.ctrl).sum / ((g.items.length : ℚ)))
        (if running then lib.CalcA g.s g.now else 0)
        g.v_max g.a_max g.j_max ∧
    (g.items = [] → ((g.items.length : ℚ)) = 0) ∧
    (g.items ≠ [] →
      (group_consensus g.items).1 =
        arithmeticMean (g.items.map fun it => MotorCtrl_GetAngle it.ctrl) ∧
      (group_consensus g.items).2 =
        arithmeticMean (g.items.map fun it => MotorCtrl_GetVelocity it.ctrl)) := by
  refine ⟨rfl, fun h => by rw [h]; rfl, fun h => ⟨?_, ?_⟩⟩
  · simp [group_consensus, arithmeticMean, List.length_map]
  · simp [group_consensus, arithmeticMean, List.length_map]

/-- C10 witness: on the empty group the divisor is 0; on the concrete
two-item group the consensus equals the arithmetic mean. -/
theorem C10_consensus_division_witness :
    ((emptyGroup.items.length : ℚ)) = 0 ∧
    (group_consensus sampleGroup.items).1 =
      arithmeticMean (sampleGroup.items.map fun it => MotorCtrl_GetAngle it.ctrl) :=
  ⟨(C10_consensus_division okLib emptyGroup true 0).2.1 rfl,
   ((C10_consensus_division okLib sampleGroup true 0).2.2 (by simp [sampleGroup])).1⟩
